import Mathlib

/-!
Verification development for the alita_tools adapters
(`src/alita_tools/github/api_wrapper.py` and
`src/alita_tools/sharepoint/api_wrapper.py`).

The adapters are thin synchronous glue over remote clients.  Remote
collaborators (the PyGithub client, the office365 client, the filesystem and
the environment) are modelled as explicit oracle fields of a state record;
calls to remote mutation primitives are additionally logged in the returned
value so that "the primitive was not called" is expressible.  Python
exceptions are modelled with `Except`/`Option`; Python string formatting is
reproduced literally.
-/

/-! ## Tool registry and dispatcher (shared shape of both `run` methods) -/

/-- One registry entry of `get_available_tools`: an operation name bound to a
callable (descriptions and argument schemas are metadata and play no role in
dispatch). -/
structure Tool (α : Type) (β : Type) where
  name : String
  ref : α → β

/-- The dispatch loop shared verbatim by `AlitaGitHubAPIWrapper.run` and
`SharepointApiWrapper.run`: scan the registry in order; on the first exact
name match call the bound callable with the given arguments and return its
result; if the loop finishes with no match, raise
`ValueError("Unknown mode: " + name)`, modelled as `.error`. -/
def runTools {α β : Type} : List (Tool α β) → String → α → Except String β
  | [], name, _ => .error ("Unknown mode: " ++ name)
  | t :: ts, name, args =>
      if t.name == name then .ok (t.ref args) else runTools ts name args

/-- The sixteen bound methods of the GitHub adapter, abstracted over a uniform
argument and result type (the registry only stores and forwards them). -/
structure GitHubOps (α β : Type) where
  get_issues : α → β
  get_issue : α → β
  comment_on_issue : α → β
  list_open_pull_requests : α → β
  get_pull_request : α → β
  list_pull_request_diffs : α → β
  create_pull_request : α → β
  create_file : α → β
  read_file : α → β
  update_file : α → β
  delete_file : α → β
  list_files_in_main_branch : α → β
  list_branches_in_repo : α → β
  set_active_branch : α → β
  create_branch : α → β
  get_files_from_directory : α → β

/-- Registry of `AlitaGitHubAPIWrapper.get_available_tools`, in source order.
Note the entry named `list_pull_request_files` is bound to the
`list_pull_request_diffs` method, as in the source. -/
def AlitaGitHubAPIWrapper.get_available_tools {α β : Type} (o : GitHubOps α β) :
    List (Tool α β) :=
  [⟨"get_issues", o.get_issues⟩,
   ⟨"get_issue", o.get_issue⟩,
   ⟨"comment_on_issue", o.comment_on_issue⟩,
   ⟨"list_open_pull_requests", o.list_open_pull_requests⟩,
   ⟨"get_pull_request", o.get_pull_request⟩,
   ⟨"list_pull_request_files", o.list_pull_request_diffs⟩,
   ⟨"create_pull_request", o.create_pull_request⟩,
   ⟨"create_file", o.create_file⟩,
   ⟨"read_file", o.read_file⟩,
   ⟨"update_file", o.update_file⟩,
   ⟨"delete_file", o.delete_file⟩,
   ⟨"list_files_in_main_branch", o.list_files_in_main_branch⟩,
   ⟨"list_branches_in_repo", o.list_branches_in_repo⟩,
   ⟨"set_active_branch", o.set_active_branch⟩,
   ⟨"create_branch", o.create_branch⟩,
   ⟨"get_files_from_directory", o.get_files_from_directory⟩]

/-- `AlitaGitHubAPIWrapper.run(name, *args, **kwargs)`. -/
def AlitaGitHubAPIWrapper.run {α β : Type} (o : GitHubOps α β) (name : String)
    (args : α) : Except String β :=
  runTools (AlitaGitHubAPIWrapper.get_available_tools o) name args

/-- The four bound methods of the SharePoint adapter. -/
structure SharepointOps (α β : Type) where
  read_list : α → β
  get_all_files : α → β
  get_all_files_in_folder : α → β
  read_file : α → β

/-- Registry of `SharepointApiWrapper.get_available_tools`, in source order.
The entry named `read_document` is bound to the `read_file` method. -/
def SharepointApiWrapper.get_available_tools {α β : Type} (o : SharepointOps α β) :
    List (Tool α β) :=
  [⟨"read_list", o.read_list⟩,
   ⟨"get_all_files", o.get_all_files⟩,
   ⟨"get_all_files_in_folder", o.get_all_files_in_folder⟩,
   ⟨"read_document", o.read_file⟩]

/-- `SharepointApiWrapper.run(mode, *args, **kwargs)`. -/
def SharepointApiWrapper.run {α β : Type} (o : SharepointOps α β) (mode : String)
    (args : α) : Except String β :=
  runTools (SharepointApiWrapper.get_available_tools o) mode args

/-- A concrete operations record used to instantiate universally quantified
theorems at an explicit input. -/
def demoGHOps : GitHubOps Nat Nat :=
  ⟨fun n => n, fun n => n + 1, fun n => n + 2, fun n => n + 3,
   fun n => n + 4, fun n => n + 5, fun n => n + 6, fun n => n + 7,
   fun n => n + 8, fun n => n + 9, fun n => n + 10, fun n => n + 11,
   fun n => n + 12, fun n => n + 13, fun n => n + 14, fun n => n + 15⟩

/-! ## GitHub adapter model -/

/-- A PyGithub `GithubException`, as far as the code inspects it. -/
structure GithubExc where
  status : Nat
  message : String
deriving DecidableEq

/-- One entry returned by `repo.get_contents`: its `path` and its `type`
(`"dir"` or `"file"`). -/
structure GHEntry where
  path : String
  type : String
deriving DecidableEq

/-- Record of one call to the remote `create_file` primitive:
path, contents and target branch. -/
structure CreateCall where
  path : String
  contents : String
  branch : String
deriving DecidableEq

/-- The remote repository accessed through `github_repo_instance`, as an
oracle record.  `contents ref path` is the outcome of
`get_contents(path, ref=ref)`: a raised `GithubException` or the returned
listing (a single file is a singleton; Python truthiness of the returned
value coincides with non-emptiness).  `createOutcome` is the outcome of the
remote `create_file` primitive, `getIssue`/`getPullRequest` the serialized
result of `dumps(super().get_issue(n))` and its pull-request analogue, and
`updateResult`/`deleteResult` the messages of the non-guarded paths of the
inherited mutation operations. -/
structure GHRepo where
  default_branch : String
  contents : String → String → Except GithubExc (List GHEntry)
  createOutcome : String → String → String → Except String Unit
  getIssue : Int → String
  getPullRequest : Int → String
  updateResult : String → String
  deleteResult : String → String

/-- `get_contents(path, ref=...)`: when the `ref` keyword is omitted
(`none`), PyGithub resolves the repository default branch. -/
def GHRepo.get_contents (r : GHRepo) (path : String) (ref : Option String) :
    Except GithubExc (List GHEntry) :=
  r.contents (ref.getD r.default_branch) path

/-- The adapter state the GitHub operations read: the bound repository and
the two branch fields. -/
structure GHState where
  repo : GHRepo
  active_branch : String
  github_base_branch : String

/-- The protected-branch refusal string of `create_file` (and of the
inherited mutation operations), exactly as concatenated in the source; note
the source has no space between `the` and the branch name. -/
def protectedBranchRefusal (b : String) : String :=
  "You\x27re attempting to commit to the directly to the" ++ b ++
    " branch, which is protected. Please create a new branch and try again."

/-- The existing-file conflict string of `create_file`. -/
def conflictMessage (p b : String) : String :=
  "File already exists at `" ++ p ++ "` on branch `" ++ b ++
    "`. You must use `update_file` to modify it."

/-- The create step reached by both fall-through paths of `create_file`
(existence probe raised, or returned a falsy value): call the remote
primitive, log the call, and render success or the stringified failure. -/
def createStep (st : GHState) (file_path file_contents : String) :
    String × List CreateCall :=
  match st.repo.createOutcome file_path file_contents st.active_branch with
  | .ok _ => ("Created file " ++ file_path,
      [⟨file_path, file_contents, st.active_branch⟩])
  | .error e => ("Unable to make file due to error:\n" ++ e,
      [⟨file_path, file_contents, st.active_branch⟩])

/-- `AlitaGitHubAPIWrapper.create_file`: guard on the protected branch,
probe existence with `get_contents` (any exception is swallowed and treated
as absence), refuse on an existing file, otherwise create.  The second
component logs the calls made to the remote create primitive; the guard and
conflict branches return before any such call. -/
def AlitaGitHubAPIWrapper.create_file (st : GHState)
    (file_path file_contents : String) : String × List CreateCall :=
  if st.active_branch == st.github_base_branch then
    (protectedBranchRefusal st.github_base_branch, [])
  else
    match st.repo.get_contents file_path (some st.active_branch) with
    | .ok entries =>
        if entries.isEmpty then createStep st file_path file_contents
        else (conflictMessage file_path st.active_branch, [])
    | .error _ => createStep st file_path file_contents

/-- Modelled from the spec: `update_file` is inherited from the parent
`GitHubAPIWrapper` class, whose source is not under src.  Per the spec, the
mutation operation refuses with the protected-branch message when the active
branch equals the base branch and otherwise forwards to the remote mutation
primitive.  The second component logs the calls made to that primitive. -/
def AlitaGitHubAPIWrapper.update_file (st : GHState) (file_query : String) :
    String × List String :=
  if st.active_branch == st.github_base_branch then
    (protectedBranchRefusal st.github_base_branch, [])
  else (st.repo.updateResult file_query, [file_query])

/-- Modelled from the spec: `delete_file` is inherited from the parent
`GitHubAPIWrapper` class, whose source is not under src.  Per the spec, the
mutation operation refuses with the protected-branch message when the active
branch equals the base branch and otherwise forwards to the remote mutation
primitive.  The second component logs the calls made to that primitive. -/
def AlitaGitHubAPIWrapper.delete_file (st : GHState) (file_path : String) :
    String × List String :=
  if st.active_branch == st.github_base_branch then
    (protectedBranchRefusal st.github_base_branch, [])
  else (st.repo.deleteResult file_path, [file_path])

/-- Outcome of `_get_files`: an early string return for a raised exception on
the initial listing, a normal return of the accumulated file entries (the
source renders them with `str(files)`), or an exception escaping the loop
(the child fetch inside the loop is not guarded by the `try`). -/
inductive GetFilesResult where
  | errorString (s : String)
  | files (fs : List GHEntry)
  | raised (e : GithubExc)
deriving DecidableEq

/-- The `while contents:` loop of `_get_files`: pop the front of the work
queue; a directory entry has its children fetched and appended to the queue —
note the source omits the `ref` keyword here, so the fetch is at the
repository default branch — and a file entry is accumulated.  `fuel` bounds
the number of iterations; `none` means the bound was reached. -/
def getFilesLoop (st : GHState) :
    Nat → List GHEntry → List GHEntry → Option GetFilesResult
  | 0, _, _ => none
  | _ + 1, [], files => some (.files files)
  | fuel + 1, e :: rest, files =>
      if e.type == "dir" then
        match st.repo.get_contents e.path none with
        | .ok children => getFilesLoop st fuel (rest ++ children) files
        | .error ex => some (.raised ex)
      else getFilesLoop st fuel rest (files ++ [e])

/-- `AlitaGitHubAPIWrapper._get_files(directory_path, ref)`: list the
directory at the given ref (a raised `GithubException` here becomes an error
string), then run the expansion loop. -/
def AlitaGitHubAPIWrapper._get_files (st : GHState) (fuel : Nat)
    (directory_path ref : String) : Option GetFilesResult :=
  match st.repo.get_contents directory_path (some ref) with
  | .error e => some (.errorString
      ("Error: status code " ++ toString e.status ++ ", " ++ e.message))
  | .ok contents => getFilesLoop st fuel contents []

/-- `AlitaGitHubAPIWrapper.get_files_from_directory(directory_path)`:
delegates to `_get_files` at the active branch. -/
def AlitaGitHubAPIWrapper.get_files_from_directory (st : GHState) (fuel : Nat)
    (directory_path : String) : Option GetFilesResult :=
  AlitaGitHubAPIWrapper._get_files st fuel directory_path st.active_branch

/-- Digit accumulator of the `int()` model: all remaining characters must be
decimal digits. -/
def py_natAux : List Char → Nat → Option Nat
  | [], acc => some acc
  | c :: cs, acc =>
      if c.isDigit then py_natAux cs (acc * 10 + (c.toNat - 48)) else none

/-- Unsigned part of the `int()` model: at least one digit is required. -/
def py_nat : List Char → Option Nat
  | [] => none
  | cs => py_natAux cs 0

/-- Model of the CPython `int()` conversion on a string argument, restricted
to the optional-sign-and-digits grammar the adapter relies on: `none` models
the raised `ValueError`. -/
def py_int (s : String) : Option Int :=
  match s.data with
  | '-' :: cs => (py_nat cs).map fun n => -(n : Int)
  | '+' :: cs => (py_nat cs).map fun n => (n : Int)
  | cs => (py_nat cs).map fun n => (n : Int)

/-- `AlitaGitHubAPIWrapper.get_issue(issue_number)`: `int()` first — its
`ValueError` propagates, modelled as `.error` — then
`dumps(super().get_issue(...))`, modelled by the `getIssue` oracle. -/
def AlitaGitHubAPIWrapper.get_issue (st : GHState) (issue_number : String) :
    Except String String :=
  match py_int issue_number with
  | none => .error
      ("ValueError: invalid literal for int() with base 10: " ++ issue_number)
  | some n => .ok (st.repo.getIssue n)

/-- `AlitaGitHubAPIWrapper.get_pull_request(pr_number)`: same shape as
`get_issue`. -/
def AlitaGitHubAPIWrapper.get_pull_request (st : GHState) (pr_number : String) :
    Except String String :=
  match py_int pr_number with
  | none => .error
      ("ValueError: invalid literal for int() with base 10: " ++ pr_number)
  | some n => .ok (st.repo.getPullRequest n)

/-! ## GitHub construction model (`validate_environment`) -/

/-- First value bound to a key in an association list (a Python dict or the
process environment). -/
def lookupStr (m : List (String × String)) (k : String) : Option String :=
  (m.find? (fun kv => kv.fst == k)).map Prod.snd

/-- Fallback half of langchain `get_from_dict_or_env`: a truthy environment
value, else the default, else the raised `ValueError`. -/
def envOrDefault (env : List (String × String)) (key env_key : String)
    (default : Option String) : Except String String :=
  match lookupStr env env_key with
  | some v =>
      if v == "" then
        match default with
        | some d => .ok d
        | none => .error ("Did not find " ++ key ++
            ", please add an environment variable `" ++ env_key ++
            "` which contains it, or pass `" ++ key ++ "` as a named parameter.")
      else .ok v
  | none =>
      match default with
      | some d => .ok d
      | none => .error ("Did not find " ++ key ++
          ", please add an environment variable `" ++ env_key ++
          "` which contains it, or pass `" ++ key ++ "` as a named parameter.")

/-- langchain `get_from_dict_or_env`: a truthy dictionary value wins,
otherwise fall back to the environment, the default, or a raised
`ValueError`. -/
def get_from_dict_or_env (values env : List (String × String))
    (key env_key : String) (default : Option String) : Except String String :=
  match lookupStr values key with
  | some v => if v == "" then envOrDefault env key env_key default else .ok v
  | none => envOrDefault env key env_key default

/-- The authentication strategy selected by `validate_environment`. -/
inductive GHAuth where
  | token (t : String)
  | login (u p : String)
  | appAuth (id key : String)
deriving DecidableEq

/-- The session handle produced by `validate_environment`: an anonymous
client, a directly authenticated client, or a client derived from a GitHub
App installation. -/
inductive GHSession where
  | anonymous (base_url : String)
  | direct (base_url : String) (auth : GHAuth)
  | installation (base_url : String) (inst : Nat)
deriving DecidableEq

/-- The external collaborators `validate_environment` consults: the explicit
constructor values, the process environment, the filesystem (for a private
key given as a path), the GitHub App installations, and the
`g.get_repo` binding call. -/
structure GHEnvInput where
  values : List (String × String)
  env : List (String × String)
  fs : String → Option String
  installations : List Nat
  get_repo : String → Except String Unit

/-- The fields `validate_environment` writes back into `values`. -/
structure GHValues where
  github : GHSession
  github_repository : String
  active_branch : String
  github_base_branch : String
deriving DecidableEq

/-- `AlitaGitHubAPIWrapper.validate_environment`: resolve each field from the
constructor values or the environment (defaults as in the source; the
repository has no default and its absence raises), read a private key given
as an existing filesystem path, select the authentication strategy by
priority (token, then login/password, then app credentials, then anonymous),
derive an installation session when app credentials are present
(`get_installations()[0]` raises `IndexError` on an empty list), and bind the
repository — a failing `get_repo` raises at construction. -/
def AlitaGitHubAPIWrapper.validate_environment (inp : GHEnvInput) :
    Except String GHValues := do
  let github_app_id ← get_from_dict_or_env inp.values inp.env
    "github_app_id" "GITHUB_APP_ID" (some "")
  let github_app_private_key ← get_from_dict_or_env inp.values inp.env
    "github_app_private_key" "GITHUB_APP_PRIVATE_KEY" (some "")
  let github_access_token ← get_from_dict_or_env inp.values inp.env
    "github_access_token" "GITHUB_ACCESS_TOKEN" (some "")
  let github_username ← get_from_dict_or_env inp.values inp.env
    "github_username" "GITHUB_USERNAME" (some "")
  let github_password ← get_from_dict_or_env inp.values inp.env
    "github_password" "GITHUB_PASSWORD" (some "")
  let github_repository ← get_from_dict_or_env inp.values inp.env
    "github_repository" "GITHUB_REPOSITORY" none
  let active_branch ← get_from_dict_or_env inp.values inp.env
    "active_branch" "ACTIVE_BRANCH" (some "ai")
  let github_base_branch ← get_from_dict_or_env inp.values inp.env
    "github_base_branch" "GITHUB_BASE_BRANCH" (some "main")
  let private_key :=
    if github_app_private_key == "" then github_app_private_key
    else (inp.fs github_app_private_key).getD github_app_private_key
  let github_base_url ← get_from_dict_or_env inp.values inp.env
    "github_base_url" "GITHUB_BASE_URL" (some "https://api.github.com")
  let auth : Option GHAuth :=
    if github_access_token != "" then some (.token github_access_token)
    else if github_username != "" && github_password != "" then
      some (.login github_username github_password)
    else if github_app_id != "" && private_key != "" then
      some (.appAuth github_app_id private_key)
    else none
  let g : GHSession ←
    match auth with
    | none => Except.ok (.anonymous github_base_url)
    | some a =>
        if github_app_id != "" && private_key != "" then
          match inp.installations with
          | [] => Except.error "IndexError: list index out of range"
          | inst :: _ => Except.ok (.installation github_base_url inst)
        else Except.ok (.direct github_base_url a)
  match inp.get_repo github_repository with
  | .error e => .error e
  | .ok _ => .ok ⟨g, github_repository, active_branch, github_base_branch⟩

/-! ## SharePoint adapter model -/

/-- The session handle held in `values["client"]` after a successful
authentication. -/
structure SPClient where
  site_url : String
  ctx : Nat
deriving DecidableEq

/-- Outcome of `AuthenticationContext.acquire_token_for_app`: a token was
acquired, the call returned false, or the call raised. -/
inductive SPAuthOutcome where
  | acquired (ctx : Nat)
  | failed
  | raised (msg : String)
deriving DecidableEq

/-- Constructor input of the SharePoint adapter, with the authentication
outcome as an oracle. -/
structure SPInput where
  site_url : String
  client_id : String
  client_secret : String
  root_folder : Option String
  acquire : SPAuthOutcome
deriving DecidableEq

/-- The validated field set of the SharePoint adapter.  `client` is `none`
exactly when authentication did not produce a session. -/
structure SPValues where
  site_url : String
  client_id : String
  client_secret : String
  root_folder : Option String
  client : Option SPClient
deriving DecidableEq

/-- `SharepointApiWrapper.validate_toolkit`: authentication failure — the
acquire call returning false or raising — is caught and logged, and the
validator returns normally with `client = None`; past the package-presence
check it never raises. -/
def SharepointApiWrapper.validate_toolkit (v : SPInput) : SPValues :=
  ⟨v.site_url, v.client_id, v.client_secret, v.root_folder,
    match v.acquire with
    | .acquired ctx => some ⟨v.site_url, ctx⟩
    | .failed => none
    | .raised _ => none⟩

/-- The file-property record the listing operations build
(`Name`, `Path`, `Created`, `Modified`, `Link`). -/
structure SPItemProps where
  name : String
  path : String
  created : String
  modified : String
  link : String
deriving DecidableEq

/-- One document-library item: its `file_system_object_type` (0 denotes a
file) and the property record of its `file` attribute. -/
structure SPItem where
  file_system_object_type : Nat
  file : SPItemProps
deriving DecidableEq

/-- The file object `read_file` fetches: its `name` and its raw byte
content. -/
structure SPFileObj where
  name : String
  content : List Nat
deriving DecidableEq

/-- What `read_file` can raise: an exception from the unguarded client call
chain, or the `NameError` reached when a `.txt` decode fails (the source then
returns the unbound `file_content_str`). -/
inductive SPError where
  | remote (msg : String)
  | nameError
deriving DecidableEq

/-- The SharePoint adapter state: the configured root folder and the remote
collaborators as oracles.  `lib_items title` is the full item list of the
library of that title (the `top(n)` server-side limit is applied by taking a
prefix); `folder_files url` is the recursive file list
`get_folder_by_server_relative_path(url).get_files(True)`; `list_items
title` returns the property blobs of a SharePoint list; `get_file path`
covers the load-and-read call chain of `read_file`; `decode_utf8` models
`bytes.decode("utf-8")` and `read_docx_from_bytes` the docx reader of the
`utils` module (not under src, kept abstract per the spec). -/
structure SPState where
  root_folder : Option String
  lib_items : String → Except String (List SPItem)
  folder_files : String → Except String (List SPItemProps)
  list_items : String → Except String (List String)
  get_file : String → Except String SPFileObj
  decode_utf8 : List Nat → Option String
  read_docx_from_bytes : List Nat → String

/-- The library title `get_all_files` opens: the root folder when that field
is truthy, else `Documents`. -/
def docLibTitle (st : SPState) : String :=
  match st.root_folder with
  | some r => if r == "" then "Documents" else r
  | none => "Documents"

/-- The accumulation loop of `get_all_files`: keep the property record of
each item whose `file_system_object_type` is 0, skip the rest. -/
def gafLoop : List SPItem → List SPItemProps → List SPItemProps
  | [], result => result
  | i :: is, result =>
      if i.file_system_object_type == 0 then gafLoop is (result ++ [i.file])
      else gafLoop is result

/-- `SharepointApiWrapper.get_all_files(limit_files=10)`: fetch at most
`limit_files` items of the document library (the server-side `top`), keep
the file items; any exception in the `try` yields `[]`. -/
def SharepointApiWrapper.get_all_files (st : SPState) (limit_files : Nat) :
    List SPItemProps :=
  match st.lib_items (docLibTitle st) with
  | .error _ => []
  | .ok items => gafLoop (items.take limit_files) []

/-- `get_all_files` called without the `limit_files` argument: the Python
default of 10 applies. -/
def SharepointApiWrapper.get_all_files_default (st : SPState) :
    List SPItemProps :=
  SharepointApiWrapper.get_all_files st 10

/-- The accumulation loop of `get_all_files_in_folder`: before each
iteration body, break once the result already holds `limit` entries. -/
def gafifLoop (limit : Nat) : List SPItemProps → List SPItemProps → List SPItemProps
  | [], result => result
  | f :: fs, result =>
      if limit ≤ result.length then result
      else gafifLoop limit fs (result ++ [f])

/-- `SharepointApiWrapper.get_all_files_in_folder(folder_name,
limit_files=10)`: fetch the recursive file list of
`Shared Documents/folder_name`, accumulate until the limit is reached; any
exception in the `try` yields `[]`. -/
def SharepointApiWrapper.get_all_files_in_folder (st : SPState)
    (folder_name : String) (limit_files : Nat) : List SPItemProps :=
  match st.folder_files ("Shared Documents/" ++ folder_name) with
  | .error _ => []
  | .ok files => gafifLoop limit_files files []

/-- `get_all_files_in_folder` called without the `limit_files` argument: the
Python default of 10 applies. -/
def SharepointApiWrapper.get_all_files_in_folder_default (st : SPState)
    (folder_name : String) : List SPItemProps :=
  SharepointApiWrapper.get_all_files_in_folder st folder_name 10

/-- `SharepointApiWrapper.read_list(list_title)`: on success the property
records of up to 1000 items; any exception is logged and the method falls off
the end, returning Python `None`, modelled as `none`. -/
def SharepointApiWrapper.read_list (st : SPState) (list_title : String) :
    Option (List String) :=
  match st.list_items list_title with
  | .error _ => none
  | .ok items => some items

/-- Model of Python `str.endswith`: suffix comparison on the character
sequences. -/
def py_endswith (s suffix : String) : Bool :=
  suffix.data.isSuffixOf s.data

/-- The literal unsupported-type result of `read_file`. -/
def unsupportedTypeMessage : String :=
  "Not supported type of files entered. Supported types are TXT and DOCX only at the moment"

/-- `SharepointApiWrapper.read_file(path)`: the client call chain is not
guarded, so its exceptions propagate (`.error (.remote _)`).  A `.txt` name
decodes the bytes as UTF-8 (a failed decode is printed and the following
`return file_content_str` raises `NameError`); a `.docx` name goes through
the docx reader; any other name returns the unsupported-type string. -/
def SharepointApiWrapper.read_file (st : SPState) (path : String) :
    Except SPError String :=
  match st.get_file path with
  | .error e => .error (.remote e)
  | .ok file =>
      if py_endswith file.name ".txt" then
        match st.decode_utf8 file.content with
        | some s => .ok s
        | none => .error .nameError
      else if py_endswith file.name ".docx" then
        .ok (st.read_docx_from_bytes file.content)
      else
        .ok unsupportedTypeMessage

/-- Projection of a `_get_files` outcome to the listed file paths, used to
state traversal results. -/
def resultFilePaths : Option GetFilesResult → Option (List String)
  | some (.files fs) => some (fs.map GHEntry.path)
  | _ => none

/-! ## Concrete states used to instantiate theorems -/

/-- A repository where `x.txt` exists on branch `ai` and the default branch
is `main`; all remote mutation primitives succeed. -/
def ghDemoRepo : GHRepo :=
  ⟨"main",
   fun ref path =>
     if ref == "ai" && path == "x.txt" then .ok [⟨"x.txt", "file"⟩] else .ok [],
   fun _ _ _ => .ok (),
   fun n => "issue " ++ toString n,
   fun n => "pr " ++ toString n,
   fun q => "Updated file " ++ q,
   fun p => "Deleted file " ++ p⟩

/-- Adapter state on working branch `ai` over base branch `main`. -/
def ghDemoState : GHState := ⟨ghDemoRepo, "ai", "main"⟩

/-- Adapter state whose active branch equals the base branch. -/
def ghGuardState : GHState := ⟨ghDemoRepo, "main", "main"⟩

/-- A repository where `x.txt` exists on `main`, which is both the active and
the base branch. -/
def c5Repo : GHRepo :=
  ⟨"main",
   fun ref path =>
     if ref == "main" && path == "x.txt" then .ok [⟨"x.txt", "file"⟩] else .ok [],
   fun _ _ _ => .ok (),
   fun n => "issue " ++ toString n,
   fun n => "pr " ++ toString n,
   fun q => "Updated file " ++ q,
   fun p => "Deleted file " ++ p⟩

/-- Adapter state for the existing-file probe with the guard triggered. -/
def c5State : GHState := ⟨c5Repo, "main", "main"⟩

/-- A repository whose branch `ai` holds `a.txt` and `dir1/b.txt`, while the
default branch `main` holds `dir1/z.txt` under `dir1`: the two branches give
different children for the same directory. -/
def c3Repo : GHRepo :=
  ⟨"main",
   fun ref path =>
     if ref == "ai" && path == "" then .ok [⟨"dir1", "dir"⟩, ⟨"a.txt", "file"⟩]
     else if ref == "ai" && path == "dir1" then .ok [⟨"dir1/b.txt", "file"⟩]
     else if ref == "main" && path == "dir1" then .ok [⟨"dir1/z.txt", "file"⟩]
     else .ok [],
   fun _ _ _ => .ok (),
   fun n => "issue " ++ toString n,
   fun n => "pr " ++ toString n,
   fun q => "Updated file " ++ q,
   fun p => "Deleted file " ++ p⟩

/-- Adapter state traversing with active branch `ai`. -/
def c3State : GHState := ⟨c3Repo, "ai", "main"⟩

/-- Property record of a file item in the demo document library. -/
def spFileProps : SPItemProps :=
  ⟨"report.docx", "/sites/s/Shared Documents/report.docx",
   "2024-01-01", "2024-01-02", "https://link/report"⟩

/-- Property record of a folder item in the demo document library. -/
def spFolderProps : SPItemProps :=
  ⟨"Archive", "/sites/s/Shared Documents/Archive", "2024-01-01", "2024-01-01", ""⟩

/-- Recursive file list of the demo folder. -/
def spFolderFiles : List SPItemProps :=
  [⟨"a.txt", "/f/a.txt", "c1", "m1", "l1"⟩,
   ⟨"b.txt", "/f/b.txt", "c2", "m2", "l2"⟩,
   ⟨"c.txt", "/f/c.txt", "c3", "m3", "l3"⟩]

/-- A healthy SharePoint state: a library with one folder and one file item,
a folder listing, a list, a decodable `.txt` file and an `.xyz` file. -/
def spDemoState : SPState :=
  ⟨none,
   fun t => if t == "Documents" then .ok [⟨1, spFolderProps⟩, ⟨0, spFileProps⟩]
     else .error "list not found",
   fun u => if u == "Shared Documents/reports" then .ok spFolderFiles
     else .error "folder not found",
   fun t => if t == "Backlog" then .ok ["item1"] else .error "list not found",
   fun p => if p == "notes.txt" then .ok ⟨"notes.txt", [104, 105]⟩
     else if p == "img.xyz" then .ok ⟨"img.xyz", []⟩
     else .error "404 not found",
   fun bs => if bs == [104, 105] then some "hi" else none,
   fun _ => "docx text"⟩

/-- A SharePoint state whose every remote call fails. -/
def spFailState : SPState :=
  ⟨none, fun _ => .error "boom", fun _ => .error "boom", fun _ => .error "boom",
   fun _ => .error "404 not found", fun _ => none, fun _ => ""⟩

/-- A SharePoint constructor input whose token acquisition returns false. -/
def spAuthFailInput : SPInput :=
  ⟨"https://contoso.sharepoint.com", "id", "secret", none, .failed⟩

/-- GitHub constructor input with a token and a repository name, parametrized
by the repository-binding oracle. -/
def ghInput (r : String) (f : String → Except String Unit) : GHEnvInput :=
  ⟨[("github_access_token", "token"), ("github_repository", r)],
   [], fun _ => none, [], f⟩

/-- GitHub constructor input with no repository in the values or the
environment. -/
def ghNoRepoInput : GHEnvInput :=
  ⟨[("github_access_token", "token")], [], fun _ => none, [], fun _ => .ok ()⟩

/-- The `ValueError` message raised when the repository field is absent. -/
def missingRepoMessage : String :=
  "Did not find github_repository, please add an environment variable `GITHUB_REPOSITORY` which contains it, or pass `github_repository` as a named parameter."

/-! ## Theorems -/

/-- If no registry entry carries the requested name, the scan raises the
unknown-mode error. -/
theorem runTools_eq_error {α β : Type} (tools : List (Tool α β)) (name : String)
    (args : α) (h : ∀ t ∈ tools, t.name ≠ name) :
    runTools tools name args = .error ("Unknown mode: " ++ name) := by
  induction tools with
  | nil => rfl
  | cons t ts ih =>
      have ht : t.name ≠ name := h t (List.mem_cons_self t ts)
      have hb : (t.name == name) = false := beq_eq_false_iff_ne.mpr ht
      simp only [runTools, hb, Bool.false_eq_true, if_false]
      exact ih fun u hu => h u (List.mem_cons_of_mem t hu)

/-- The first entry carrying the requested name receives the arguments
unchanged and its result is returned. -/
theorem runTools_eq_ok {α β : Type} (pre post : List (Tool α β)) (t : Tool α β)
    (name : String) (args : α) (hpre : ∀ u ∈ pre, u.name ≠ name)
    (ht : t.name = name) :
    runTools (pre ++ t :: post) name args = .ok (t.ref args) := by
  induction pre with
  | nil => simp [runTools, ht]
  | cons u us ih =>
      have hu : u.name ≠ name := hpre u (List.mem_cons_self u us)
      have hb : (u.name == name) = false := beq_eq_false_iff_ne.mpr hu
      simp only [List.cons_append, runTools, hb, Bool.false_eq_true, if_false]
      exact ih fun v hv => hpre v (List.mem_cons_of_mem u hv)

/-- C1.  Dispatch is by exact string match on both adapters: a name matching
no registry entry yields the `Unknown mode` error naming the requested name
(and, since the statement holds for every operations record `o`, no operation
callable contributes to the result); a matching name has all arguments
forwarded unchanged to the first bound callable of that name, whose result is
returned. -/
theorem claim1_dispatch_exact_match {α β : Type} (name : String) (args : α) :
    (∀ o : GitHubOps α β,
        name ∉ (AlitaGitHubAPIWrapper.get_available_tools o).map Tool.name →
        AlitaGitHubAPIWrapper.run o name args =
          .error ("Unknown mode: " ++ name)) ∧
    (∀ o : SharepointOps α β,
        name ∉ (SharepointApiWrapper.get_available_tools o).map Tool.name →
        SharepointApiWrapper.run o name args =
          .error ("Unknown mode: " ++ name)) ∧
    (∀ (pre post : List (Tool α β)) (t : Tool α β),
        (∀ u ∈ pre, u.name ≠ name) → t.name = name →
        runTools (pre ++ t :: post) name args = .ok (t.ref args)) := by
  refine ⟨?_, ?_, ?_⟩
  · intro o h
    exact runTools_eq_error _ name args fun t htl heq =>
      h (heq ▸ List.mem_map_of_mem Tool.name htl)
  · intro o h
    exact runTools_eq_error _ name args fun t htl heq =>
      h (heq ▸ List.mem_map_of_mem Tool.name htl)
  · intro pre post t hpre ht
    exact runTools_eq_ok pre post t name args hpre ht

/-- Witness for C1 at a concrete registry: the name `frobnicate` is bound to
no GitHub operation, and the dispatcher reports exactly it. -/
theorem claim1_witness :
    AlitaGitHubAPIWrapper.run demoGHOps "frobnicate" 5 =
      .error "Unknown mode: frobnicate" :=
  (claim1_dispatch_exact_match "frobnicate" 5).1 demoGHOps (by decide)

/-- C2.  When the active branch equals the base branch, each mutation
operation returns the protected-branch refusal — which contains the branch
name, as the final conjunct exhibits — and the log of calls to the remote
mutation primitive is empty. -/
theorem claim2_protected_branch_guard (st : GHState) (p c q d : String)
    (h : st.active_branch = st.github_base_branch) :
    AlitaGitHubAPIWrapper.create_file st p c =
      (protectedBranchRefusal st.github_base_branch, []) ∧
    AlitaGitHubAPIWrapper.update_file st q =
      (protectedBranchRefusal st.github_base_branch, []) ∧
    AlitaGitHubAPIWrapper.delete_file st d =
      (protectedBranchRefusal st.github_base_branch, []) ∧
    ∃ pre post, protectedBranchRefusal st.github_base_branch =
      pre ++ st.github_base_branch ++ post := by
  have hb : (st.active_branch == st.github_base_branch) = true := beq_iff_eq.mpr h
  refine ⟨?_, ?_, ?_,
    "You\x27re attempting to commit to the directly to the",
    " branch, which is protected. Please create a new branch and try again.",
    rfl⟩
  · simp [AlitaGitHubAPIWrapper.create_file, hb]
  · simp [AlitaGitHubAPIWrapper.update_file, hb]
  · simp [AlitaGitHubAPIWrapper.delete_file, hb]

/-- Witness for C2: with both branches `main`, `create_file` returns the
refusal and logs no remote create call. -/
theorem claim2_witness :
    AlitaGitHubAPIWrapper.create_file ghGuardState "x.txt" "hi" =
      (protectedBranchRefusal "main", []) :=
  (claim2_protected_branch_guard ghGuardState "x.txt" "hi" "q" "f" rfl).1

/-- C3 evaluation at the failing input.  On branch `ai` the tree is
`a.txt, dir1/b.txt`, but the traversal expands `dir1` without the `ref`
argument, so the children are read from the default branch `main` and the
result is `a.txt, dir1/z.txt` — not the file set of the tree at the
requested ref. -/
theorem claim3_ref_bug_eval :
    resultFilePaths (AlitaGitHubAPIWrapper.get_files_from_directory c3State 10 "")
      = some ["a.txt", "dir1/z.txt"] ∧
    resultFilePaths (AlitaGitHubAPIWrapper.get_files_from_directory c3State 10 "")
      ≠ some ["a.txt", "dir1/b.txt"] := by
  constructor
  · decide
  · decide

/-- C5 counterexample: on a state where `x.txt` already exists on the active
branch but the active branch equals the base branch, `create_file` returns
the protected-branch refusal, not the conflict message the claim
promises. -/
theorem claim5_counterexample :
    AlitaGitHubAPIWrapper.create_file c5State "x.txt" "hi" =
      (protectedBranchRefusal "main", []) ∧
    (AlitaGitHubAPIWrapper.create_file c5State "x.txt" "hi").1 ≠
      conflictMessage "x.txt" "main" := by
  constructor
  · rfl
  · decide

/-- C5 as amended: when the active branch differs from the base branch and
the existence probe finds the path, `create_file` returns the conflict
message directing to `update_file` and the remote create primitive is not
called (empty call log). -/
theorem claim5_conflict_on_existing (st : GHState) (p c : String)
    (es : List GHEntry) (hne : st.active_branch ≠ st.github_base_branch)
    (hex : st.repo.get_contents p (some st.active_branch) = .ok es)
    (hnil : es ≠ []) :
    AlitaGitHubAPIWrapper.create_file st p c =
      (conflictMessage p st.active_branch, []) := by
  have hb : (st.active_branch == st.github_base_branch) = false :=
    beq_eq_false_iff_ne.mpr hne
  have he : es.isEmpty = false := by
    cases es with
    | nil => exact absurd rfl hnil
    | cons a as => rfl
  simp [AlitaGitHubAPIWrapper.create_file, hb, hex, he]

/-- Witness for the amended C5: `x.txt` exists on branch `ai`, the base is
`main`, and `create_file` returns the conflict message without calling the
create primitive. -/
theorem claim5_witness :
    AlitaGitHubAPIWrapper.create_file ghDemoState "x.txt" "hi" =
      (conflictMessage "x.txt" "ai", []) :=
  claim5_conflict_on_existing ghDemoState "x.txt" "hi" [⟨"x.txt", "file"⟩]
    (by decide) rfl (by decide)

/-- C9.  `get_issue` and `get_pull_request` convert their string argument
with `int()` first: a non-parsing string raises the conversion error, which
propagates (no error string is returned through the normal channel); a
parsing string has the parsed integer forwarded to the underlying client
operation. -/
theorem claim9_int_conversion (st : GHState) (s : String) :
    (py_int s = none →
        AlitaGitHubAPIWrapper.get_issue st s =
          .error ("ValueError: invalid literal for int() with base 10: " ++ s) ∧
        AlitaGitHubAPIWrapper.get_pull_request st s =
          .error ("ValueError: invalid literal for int() with base 10: " ++ s)) ∧
    (∀ n, py_int s = some n →
        AlitaGitHubAPIWrapper.get_issue st s = .ok (st.repo.getIssue n) ∧
        AlitaGitHubAPIWrapper.get_pull_request st s =
          .ok (st.repo.getPullRequest n)) := by
  constructor
  · intro h
    exact ⟨by simp [AlitaGitHubAPIWrapper.get_issue, h],
      by simp [AlitaGitHubAPIWrapper.get_pull_request, h]⟩
  · intro n h
    exact ⟨by simp [AlitaGitHubAPIWrapper.get_issue, h],
      by simp [AlitaGitHubAPIWrapper.get_pull_request, h]⟩

/-- Witness for C9: `abc` raises the conversion error, `42` is forwarded as
the integer 42. -/
theorem claim9_witness :
    AlitaGitHubAPIWrapper.get_issue ghDemoState "abc" =
      .error "ValueError: invalid literal for int() with base 10: abc" ∧
    AlitaGitHubAPIWrapper.get_issue ghDemoState "42" =
      .ok (ghDemoState.repo.getIssue 42) := by
  constructor
  · exact ((claim9_int_conversion ghDemoState "abc").1 (by decide)).1
  · exact ((claim9_int_conversion ghDemoState "42").2 42 (by decide)).1

/-- A name ending in `.docx` cannot also end in `.txt`: the two suffixes are
incomparable. -/
theorem py_endswith_docx_not_txt (s : String)
    (h : py_endswith s ".docx" = true) : py_endswith s ".txt" = false := by
  cases hx : py_endswith s ".txt" with
  | false => rfl
  | true =>
      have h1 : ".docx".data <:+ s.data := by
        have := h
        rw [py_endswith, List.isSuffixOf_iff_suffix] at this
        exact this
      have h2 : ".txt".data <:+ s.data := by
        have := hx
        rw [py_endswith, List.isSuffixOf_iff_suffix] at this
        exact this
      rcases List.suffix_or_suffix_of_suffix h1 h2 with h3 | h3
      · exact absurd h3 (by decide)
      · exact absurd h3 (by decide)

/-- C6.  After a successful fetch, `read_file` branches on the file name: a
`.txt` name returns the stored bytes decoded as UTF-8; a `.docx` name
returns the text extracted by the docx reader; any other name returns the
literal unsupported-type message — a normal return, never an exception. -/
theorem claim6_read_file_branches (st : SPState) (path : String)
    (f : SPFileObj) (h : st.get_file path = .ok f) :
    (∀ s, py_endswith f.name ".txt" = true → st.decode_utf8 f.content = some s →
        SharepointApiWrapper.read_file st path = .ok s) ∧
    (py_endswith f.name ".docx" = true →
        SharepointApiWrapper.read_file st path =
          .ok (st.read_docx_from_bytes f.content)) ∧
    (py_endswith f.name ".txt" = false → py_endswith f.name ".docx" = false →
        SharepointApiWrapper.read_file st path = .ok unsupportedTypeMessage) := by
  refine ⟨?_, ?_, ?_⟩
  · intro s ht hd
    simp [SharepointApiWrapper.read_file, h, ht, hd]
  · intro hd
    have ht := py_endswith_docx_not_txt f.name hd
    simp [SharepointApiWrapper.read_file, h, ht, hd]
  · intro ht hd
    simp [SharepointApiWrapper.read_file, h, ht, hd]

/-- Witness for C6: `notes.txt` with content bytes `hi` decodes to `hi`, and
the `.xyz` path returns the literal unsupported-type message. -/
theorem claim6_witness :
    SharepointApiWrapper.read_file spDemoState "notes.txt" = .ok "hi" ∧
    SharepointApiWrapper.read_file spDemoState "img.xyz" =
      .ok unsupportedTypeMessage := by
  constructor
  · exact (claim6_read_file_branches spDemoState "notes.txt"
      ⟨"notes.txt", [104, 105]⟩ rfl).1 "hi" (by decide) rfl
  · exact (claim6_read_file_branches spDemoState "img.xyz"
      ⟨"img.xyz", []⟩ rfl).2.2 (by decide) (by decide)

/-- The accumulation loop of `get_all_files` keeps exactly the property
records of the file items, in order, appended to the accumulator. -/
theorem gafLoop_eq (items : List SPItem) (acc : List SPItemProps) :
    gafLoop items acc = acc ++ items.filterMap
      (fun i => if i.file_system_object_type == 0 then some i.file else none) := by
  induction items generalizing acc with
  | nil => simp [gafLoop]
  | cons i is ih =>
      cases h : (i.file_system_object_type == 0) with
      | true =>
          have h0 : i.file_system_object_type = 0 := beq_iff_eq.mp h
          simp [gafLoop, h, ih, List.filterMap_cons, h0]
      | false =>
          have h0 : ¬ i.file_system_object_type = 0 := beq_eq_false_iff_ne.mp h
          simp [gafLoop, h, ih, List.filterMap_cons, h0]

/-- The break-guarded loop of `get_all_files_in_folder` extends the
accumulator with a prefix of the remaining files, up to the limit. -/
theorem gafifLoop_take (limit : Nat) (fs : List SPItemProps) :
    ∀ acc : List SPItemProps, acc.length ≤ limit →
      gafifLoop limit fs acc = acc ++ fs.take (limit - acc.length) := by
  induction fs with
  | nil => intro acc h; simp [gafifLoop]
  | cons f fs ih =>
      intro acc h
      by_cases hle : limit ≤ acc.length
      · have heq : acc.length = limit := Nat.le_antisymm h hle
        rw [gafifLoop, if_pos hle, heq, Nat.sub_self]
        simp
      · have hlt : acc.length < limit := Nat.lt_of_not_le hle
        rw [gafifLoop, if_neg hle, ih (acc ++ [f]) (by simpa using hlt)]
        rw [List.append_assoc]
        have h2 : limit - acc.length = (limit - (acc.length + 1)) + 1 := by omega
        rw [h2, List.take_succ_cons]
        simp

/-- C8.  The listing operations return at most `n` entries for every limit
`n`; `get_all_files_in_folder` returns exactly the first `n` fetched files
(the loop breaks at the limit rather than post-filtering); calling either
operation without the argument applies the Python default of 10; and a limit
of 0 yields the empty result without error. -/
theorem claim8_listing_limits (st : SPState) (folder : String) (n : Nat) :
    (SharepointApiWrapper.get_all_files st n).length ≤ n ∧
    (SharepointApiWrapper.get_all_files_in_folder st folder n).length ≤ n ∧
    (∀ files, st.folder_files ("Shared Documents/" ++ folder) = .ok files →
        SharepointApiWrapper.get_all_files_in_folder st folder n =
          files.take n) ∧
    SharepointApiWrapper.get_all_files_default st =
      SharepointApiWrapper.get_all_files st 10 ∧
    SharepointApiWrapper.get_all_files_in_folder_default st folder =
      SharepointApiWrapper.get_all_files_in_folder st folder 10 ∧
    SharepointApiWrapper.get_all_files st 0 = [] ∧
    SharepointApiWrapper.get_all_files_in_folder st folder 0 = [] := by
  refine ⟨?_, ?_, ?_, rfl, rfl, ?_, ?_⟩
  · unfold SharepointApiWrapper.get_all_files
    cases h : st.lib_items (docLibTitle st) with
    | error e => simp
    | ok items =>
        dsimp only
        rw [gafLoop_eq]
        calc (([] : List SPItemProps) ++ (items.take n).filterMap _).length
            ≤ (items.take n).length := by
              simpa using List.length_filterMap_le _ (items.take n)
          _ ≤ n := List.length_take_le n items
  · unfold SharepointApiWrapper.get_all_files_in_folder
    cases h : st.folder_files ("Shared Documents/" ++ folder) with
    | error e => simp
    | ok files =>
        dsimp only
        rw [gafifLoop_take n files [] (Nat.zero_le n)]
        simp
  · intro files h
    unfold SharepointApiWrapper.get_all_files_in_folder
    rw [h]
    dsimp only
    rw [gafifLoop_take n files [] (Nat.zero_le n)]
    simp
  · unfold SharepointApiWrapper.get_all_files
    cases h : st.lib_items (docLibTitle st) with
    | error e => rfl
    | ok items => dsimp only; simp [gafLoop]
  · unfold SharepointApiWrapper.get_all_files_in_folder
    cases h : st.folder_files ("Shared Documents/" ++ folder) with
    | error e => rfl
    | ok files =>
        dsimp only
        rw [gafifLoop_take 0 files [] (Nat.zero_le 0)]
        simp

/-- Witness for C8: with three files fetched and a limit of 2, the folder
listing is exactly the first two files. -/
theorem claim8_witness :
    SharepointApiWrapper.get_all_files_in_folder spDemoState "reports" 2 =
      spFolderFiles.take 2 :=
  (claim8_listing_limits spDemoState "reports" 2).2.2.1 spFolderFiles rfl

/-- C10.  Every entry of a `get_all_files` result is the property record of
a fetched item whose `file_system_object_type` is 0; folder items are never
included. -/
theorem claim10_only_files (st : SPState) (n : Nat) (p : SPItemProps)
    (hp : p ∈ SharepointApiWrapper.get_all_files st n) :
    ∃ items, st.lib_items (docLibTitle st) = .ok items ∧
      ∃ i ∈ items.take n, i.file_system_object_type = 0 ∧ p = i.file := by
  unfold SharepointApiWrapper.get_all_files at hp
  cases h : st.lib_items (docLibTitle st) with
  | error e => rw [h] at hp; simp at hp
  | ok items =>
      rw [h] at hp
      dsimp only at hp
      rw [gafLoop_eq] at hp
      simp at hp
      obtain ⟨i, hi, hz, hf⟩ := hp
      exact ⟨items, rfl, i, hi, hz, hf.symm⟩

/-- Witness for C10: the demo library holds a folder item and a file item;
the listed record comes from the file item. -/
theorem claim10_witness :
    ∃ items, spDemoState.lib_items (docLibTitle spDemoState) = .ok items ∧
      ∃ i ∈ items.take 10, i.file_system_object_type = 0 ∧
        spFileProps = i.file :=
  claim10_only_files spDemoState 10 spFileProps (by decide)

/-- C4 counterexample: with a failing client call chain, `read_file`
propagates the exception to the caller instead of returning a descriptive
string, and `read_list` converts the failure into Python `None`, not a
string. -/
theorem claim4_counterexample :
    SharepointApiWrapper.read_file spFailState "doc.txt" =
      .error (.remote "404 not found") ∧
    SharepointApiWrapper.read_list spFailState "Backlog" = none := by
  constructor
  · rfl
  · rfl

/-- C4 as amended: the listing operations and the GitHub `create_file`
operation do catch remote failures at the operation boundary (an empty list,
or a descriptive string); but SharePoint `read_file` propagates the
underlying exception unchanged, and `read_list` yields no value rather than
a descriptive string. -/
theorem claim4_error_boundaries (gst : GHState) (st : SPState)
    (fo lt pa p c : String) (n : Nat) :
    (∀ e, st.lib_items (docLibTitle st) = .error e →
        SharepointApiWrapper.get_all_files st n = []) ∧
    (∀ e, st.folder_files ("Shared Documents/" ++ fo) = .error e →
        SharepointApiWrapper.get_all_files_in_folder st fo n = []) ∧
    (∀ e, st.list_items lt = .error e →
        SharepointApiWrapper.read_list st lt = none) ∧
    (∀ e, st.get_file pa = .error e →
        SharepointApiWrapper.read_file st pa = .error (.remote e)) ∧
    (∀ ex e, gst.active_branch ≠ gst.github_base_branch →
        gst.repo.get_contents p (some gst.active_branch) = .error ex →
        gst.repo.createOutcome p c gst.active_branch = .error e →
        AlitaGitHubAPIWrapper.create_file gst p c =
          ("Unable to make file due to error:\n" ++ e,
           [⟨p, c, gst.active_branch⟩])) := by
  refine ⟨?_, ?_, ?_, ?_, ?_⟩
  · intro e h
    simp [SharepointApiWrapper.get_all_files, h]
  · intro e h
    simp [SharepointApiWrapper.get_all_files_in_folder, h]
  · intro e h
    simp [SharepointApiWrapper.read_list, h]
  · intro e h
    simp [SharepointApiWrapper.read_file, h]
  · intro ex e hne hex hco
    have hb : (gst.active_branch == gst.github_base_branch) = false :=
      beq_eq_false_iff_ne.mpr hne
    simp [AlitaGitHubAPIWrapper.create_file, hb, hex, createStep, hco]

/-- Witness for the amended C4: the failing SharePoint state yields the
empty listing rather than an exception. -/
theorem claim4_witness :
    SharepointApiWrapper.get_all_files spFailState 5 = [] :=
  (claim4_error_boundaries ghDemoState spFailState "f" "L" "x" "p" "c" 5).1
    "boom" rfl

/-- C7 counterexample: when token acquisition fails, the SharePoint
validator returns normally — the constructed field set, with a null client —
instead of raising at construction time. -/
theorem claim7_counterexample :
    SharepointApiWrapper.validate_toolkit spAuthFailInput =
      ⟨"https://contoso.sharepoint.com", "id", "secret", none, none⟩ := rfl

/-- C7 as amended: the GitHub adapter does fail at construction — a missing
repository field raises the lookup error, and a failing repository binding
propagates its error — while the SharePoint adapter swallows authentication
failure and constructs with a null client, deferring the failure to the
first operation that touches the client. -/
theorem claim7_construction_failure (v : SPInput) (r em : String)
    (f : String → Except String Unit) :
    ((v.acquire = .failed ∨ ∃ m, v.acquire = .raised m) →
        (SharepointApiWrapper.validate_toolkit v).client = none) ∧
    (r ≠ "" → f r = .error em →
        AlitaGitHubAPIWrapper.validate_environment (ghInput r f) = .error em) ∧
    AlitaGitHubAPIWrapper.validate_environment ghNoRepoInput =
      .error missingRepoMessage := by
  refine ⟨?_, ?_, ?_⟩
  · intro h
    rcases h with h | ⟨m, h⟩ <;>
      simp [SharepointApiWrapper.validate_toolkit, h]
  · intro hr hf
    have hrb : (r == "") = false := beq_eq_false_iff_ne.mpr hr
    simp [AlitaGitHubAPIWrapper.validate_environment, ghInput,
      get_from_dict_or_env, envOrDefault, lookupStr, hrb, hf,
      Bind.bind, Except.bind]
  · rfl

/-- Witness for the amended C7: a repository binding that raises `404`
makes construction fail with that error. -/
theorem claim7_witness :
    AlitaGitHubAPIWrapper.validate_environment
      (ghInput "org/repo" (fun _ => Except.error "404: repo not found")) =
      .error "404: repo not found" :=
  (claim7_construction_failure spAuthFailInput "org/repo" "404: repo not found"
    (fun _ => Except.error "404: repo not found")).2.1 (by decide) rfl
